import Mathlib

/- Verification of the XCP flashing tool (src/flash.py) against its
   specification.  The Python source is shallowly embedded: Python ints are
   modelled as Int (or Nat where the source value is a byte count or byte),
   bytearray writes are modelled with explicit bounds and range checks that
   return the corresponding Python exception, and Python list slicing is
   modelled with its clamping semantics.  Loops are modelled with explicit
   fuel; a result that is fuel-independent characterises the terminating or
   diverging behaviour of the source loop. -/

/-- Exceptions of the Python program that are relevant to the claims.
    ConnectionAbortedError is raised by wait_for_response either with the
    Timeout argument or with a device error code; ConnectionError is raised
    by the capability checks in connect; KeyError arises from a failed dict
    lookup; ZeroDivisionError from division by zero; ValueError and
    IndexError from bytearray element assignment.  Message texts carried by
    ConnectionError are elided. -/
inductive PyExc where
  | connAbortedTimeout
  | connAbortedCode (code : Nat)
  | connError
  | keyError
  | zeroDivision
  | valueError
  | indexError
deriving DecidableEq

/-- Command codes from class XCPCommands in the source. -/
def XCPCommands.CONNECT : Nat := 0xFF

def XCPCommands.DISCONNECT : Nat := 0xFE

def XCPCommands.SET_MTA : Nat := 0xF6

def XCPCommands.PROGRAM_START : Nat := 0xD2

def XCPCommands.PROGRAM_CLEAR : Nat := 0xD1

def XCPCommands.PROGRAM : Nat := 0xD0

def XCPCommands.PROGRAM_RESET : Nat := 0xCF

def XCPCommands.PROGRAM_NEXT : Nat := 0xCA

/-- Response codes from class XCPResponses in the source. -/
def XCPResponses.SUCCESS : Nat := 0xFF

def XCPResponses.ERROR : Nat := 0xFE

/-- The keys of the dict XCPErrors.error_messages in the source (the 18
    defined device error codes).  The message strings are elided; only key
    membership matters for control flow (a lookup with a missing key raises
    KeyError). -/
def errorMessageKeys : List Nat :=
  [0x00, 0x10, 0x11, 0x12, 0x20, 0x21, 0x22, 0x23, 0x24, 0x25,
   0x26, 0x27, 0x28, 0x29, 0x2A, 0x30, 0x31, 0x32]

/-- Assignment msg.data[i] = v on a bytearray: IndexError when the index is
    out of range, ValueError when the value is not a byte. -/
def baSet (xs : List Nat) (i : Nat) (v : Int) : Except PyExc (List Nat) :=
  if i < xs.length then
    if 0 ≤ v ∧ v < 256 then .ok (xs.set i v.toNat) else .error .valueError
  else .error .indexError

/-- Index clamping of Python slice notation xs[a:b] for one bound. -/
def sliceIndex (len : Nat) (i : Int) : Nat :=
  if i < 0 then (i + len).toNat else min i.toNat len

/-- Python slice xs[a:b] with negative-index and clamping semantics. -/
def pySlice (xs : List Nat) (a b : Int) : List Nat :=
  (xs.take (sliceIndex xs.length b)).drop (sliceIndex xs.length a)

/-- Frame built by execute for SET_MTA: an 8-byte zero frame, byte0 the
    command code, byte3 the address extension, bytes 4 to 7 written by the
    loop for i in range(4, 8):
    msg.data[i] = (addr and (0xFF000000 >> (8*(i-4)))) >> (8*(7-i)). -/
def executeSetMta (addr_ext addr : Nat) : Except PyExc (List Nat) :=
  match baSet (List.replicate 8 0) 0 XCPCommands.SET_MTA with
  | .error e => .error e
  | .ok m =>
  match baSet m 3 addr_ext with
  | .error e => .error e
  | .ok m =>
  match baSet m 4 ((addr &&& (0xFF000000 >>> (8 * (4 - 4)))) >>> (8 * (7 - 4))) with
  | .error e => .error e
  | .ok m =>
  match baSet m 5 ((addr &&& (0xFF000000 >>> (8 * (5 - 4)))) >>> (8 * (7 - 5))) with
  | .error e => .error e
  | .ok m =>
  match baSet m 6 ((addr &&& (0xFF000000 >>> (8 * (6 - 4)))) >>> (8 * (7 - 6))) with
  | .error e => .error e
  | .ok m =>
  match baSet m 7 ((addr &&& (0xFF000000 >>> (8 * (7 - 4)))) >>> (8 * (7 - 7))) with
  | .error e => .error e
  | .ok m => .ok m

/-- Frame built by execute for PROGRAM_CLEAR: an 8-byte zero frame, byte0
    the command code, bytes 4 to 7 written by the same big-endian loop over
    the range argument. -/
def executeProgramClear (rng : Nat) : Except PyExc (List Nat) :=
  match baSet (List.replicate 8 0) 0 XCPCommands.PROGRAM_CLEAR with
  | .error e => .error e
  | .ok m =>
  match baSet m 4 ((rng &&& (0xFF000000 >>> (8 * (4 - 4)))) >>> (8 * (7 - 4))) with
  | .error e => .error e
  | .ok m =>
  match baSet m 5 ((rng &&& (0xFF000000 >>> (8 * (5 - 4)))) >>> (8 * (7 - 5))) with
  | .error e => .error e
  | .ok m =>
  match baSet m 6 ((rng &&& (0xFF000000 >>> (8 * (6 - 4)))) >>> (8 * (7 - 6))) with
  | .error e => .error e
  | .ok m =>
  match baSet m 7 ((rng &&& (0xFF000000 >>> (8 * (7 - 4)))) >>> (8 * (7 - 7))) with
  | .error e => .error e
  | .ok m => .ok m

/-- The loop in execute that copies the data argument into the frame
    starting at a given position:
    for data in kwargs[the data key]: msg.data[position] = data; position += 1 -/
def writePayload : List Nat → Nat → List Nat → Except PyExc (List Nat)
  | m, _, [] => .ok m
  | m, pos, d :: rest =>
    match baSet m pos (d : Int) with
    | .error e => .error e
    | .ok m2 => writePayload m2 (pos + 1) rest

/-- Frame built by execute for PROGRAM and PROGRAM_NEXT: byte0 the command
    code, byte1 the size keyword argument, the data keyword argument copied
    in from byte2 on. -/
def executeProgram (code : Nat) (size : Int) (payload : List Nat) : Except PyExc (List Nat) :=
  match baSet (List.replicate 8 0) 0 code with
  | .error e => .error e
  | .ok m =>
  match baSet m 1 size with
  | .error e => .error e
  | .ok m => writePayload m 2 payload

/-- Processing of a CONNECT success response in execute:
    self._max_data = response.data[4] << 8; self._max_data += response.data[5]. -/
def connectMaxData (resp : List Nat) : Nat :=
  (resp.getD 4 0) <<< 8 + resp.getD 5 0

/-- The two session fields set by processing a PROGRAM_START success
    response in execute. -/
structure ProgStartParams where
  data_len : Int
  max_data_prg : Int
deriving DecidableEq

/-- Processing of a PROGRAM_START success response in execute:
    max_dto_prg = response.data[3]; max_bs = response.data[4];
    self._data_len = (max_dto_prg - 2) * max_bs;
    self._max_data_prg = max_dto_prg - 2. -/
def processProgramStart (resp : List Nat) : ProgStartParams :=
  ⟨((resp.getD 3 0 : Int) - 2) * (resp.getD 4 0 : Int), (resp.getD 3 0 : Int) - 2⟩

/-- print_progress_bar(iteration, total) with default keyword parameters
    (decimals 1, length 50).  The percent line divides iteration by
    float(total), which raises ZeroDivisionError when total is zero; the
    bar consists of int(length * iteration // total) fill characters padded
    with dashes, with Python floor division and the empty-repetition
    semantics of string multiplication by a non-positive count.  The
    decimal formatting of the percent text is elided; the returned value is
    the bar character list. -/
def print_progress_bar (iteration : Int) (total : Nat) : Except PyExc (List Char) :=
  if total = 0 then .error .zeroDivision
  else
    let filled_length : Int := Int.fdiv (50 * iteration) total
    .ok (List.replicate filled_length.toNat '█' ++
         List.replicate ((50 - filled_length).toNat) '-')

/-- One PROGRAM or PROGRAM_NEXT call emitted by the scheduling loop of
    program(data): the command code, the size keyword argument and the
    payload slice passed as the data keyword argument. -/
structure PFrame where
  cmd : Nat
  size : Int
  payload : List Nat
deriving DecidableEq

/-- The inner while loop of program(data):
    while send_length > 0:
      execute(PROGRAM_NEXT, size=send_length, data=data[bytes_send:bytes_send+max_data_prg])
      bytes_send += min(send_length, max_data_prg)
      send_length -= max_data_prg
    Returns the emitted frames, the final bytes_send and true when the
    loop exited (false when fuel ran out first). -/
def innerLoop (C : Int) (data : List Nat) : Nat → Int → Int → List PFrame × Int × Bool
  | 0, n, s => if 0 < s then ([], n, false) else ([], n, true)
  | fuel + 1, n, s =>
    if 0 < s then
      let fr : PFrame := ⟨XCPCommands.PROGRAM_NEXT, s, pySlice data n (n + C)⟩
      let r := innerLoop C data fuel (n + min s C) (s - C)
      (fr :: r.1, r.2)
    else ([], n, true)

/-- The outer while loop of program(data) with U = data_len and
    C = max_data_prg:
    while bytes_send < len(data):
      send_length = data_len
      if send_length > len(data) - bytes_send: send_length = len(data) - bytes_send
      execute(PROGRAM, size=send_length, data=data[bytes_send:bytes_send+max_data_prg])
      send_length -= max_data_prg
      bytes_send += min(send_length, max_data_prg)
      [inner while loop]
    The throttled in-loop progress print is omitted: inside the loop the
    total is positive, so it cannot raise and has no effect on scheduling.
    The inner loop is run with fuel that always suffices when C is at least
    one, since send_length then strictly decreases.  Returns the emitted
    frames, the final bytes_send and true when the loop exited. -/
def outerLoop (U C : Int) (data : List Nat) : Nat → Int → List PFrame × Int × Bool
  | 0, n =>
    if n < (data.length : Int) then ([], n, false) else ([], n, true)
  | fuel + 1, n =>
    if n < (data.length : Int) then
      let s0 := if U > (data.length : Int) - n then (data.length : Int) - n else U
      let fr : PFrame := ⟨XCPCommands.PROGRAM, s0, pySlice data n (n + C)⟩
      let s1 := s0 - C
      let ri := innerLoop C data (s1.toNat + 1) (n + min s1 C) s1
      if ri.2.2 then
        let ro := outerLoop U C data fuel ri.2.1
        (fr :: ri.1 ++ ro.1, ro.2)
      else (fr :: ri.1, ri.2.1, false)
    else ([], n, true)

/-- Result of program(data): the scheduling loop either runs out of fuel
    (the source loop has not terminated within that many outer iterations),
    raises an exception from the final progress print, or finishes,
    emitting its block frames and then exactly one PROGRAM_RESET. -/
inductive ProgramOutcome where
  | fuelOut
  | raised (e : PyExc)
  | finished (frames : List PFrame) (resets : Nat)
deriving DecidableEq

/-- program(data): run the scheduling loop from bytes_send = 0, then
    print_progress_bar(bytes_send, len(data)), then execute(PROGRAM_RESET),
    modelling every command exchange as succeeding. -/
def program (U C : Int) (data : List Nat) (fuel : Nat) : ProgramOutcome :=
  let r := outerLoop U C data fuel 0
  if r.2.2 then
    match print_progress_bar r.2.1 data.length with
    | .error e => .raised e
    | .ok _ => .finished r.1 1
  else .fuelOut

/-- An incoming CAN frame as seen by wait_for_response: its arbitration id
    and the first two data bytes (the only ones the function reads). -/
structure InFrame where
  arbitration_id : Nat
  byte0 : Nat
  byte1 : Nat
deriving DecidableEq

/-- Result of a command exchange in wait_for_response: return of a success
    frame, ConnectionAbortedError with a device error code, or
    ConnectionAbortedError with the Timeout argument.  The pending case
    means the modelled incoming event trace was exhausted while the source
    loop was still waiting. -/
inductive ExchangeOutcome where
  | success (f : InFrame)
  | deviceError (code : Nat)
  | timeout
  | pending
deriving DecidableEq

/-- The retry loop of wait_for_response for an exchange where the original
    message was passed (every call site passes it).  The events list is the
    sequence of results of reader.get_message(timeout): none for a timeout
    tick, some f for a delivered frame.  tries starts at 1 and sends counts
    transmissions of the frame, starting at 1 for the initial send. -/
def waitLoop (rx : Nat) : List (Option InFrame) → Nat → Nat → ExchangeOutcome × Nat
  | events, tries, sends =>
    if tries = 5 then (.timeout, sends)
    else
      match events with
      | [] => (.pending, sends)
      | none :: rest => waitLoop rx rest (tries + 1) (sends + 1)
      | some f :: rest =>
        if f.arbitration_id = rx ∧ f.byte0 = XCPResponses.SUCCESS then (.success f, sends)
        else if f.arbitration_id = rx ∧ f.byte0 = XCPResponses.ERROR then (.deviceError f.byte1, sends)
        else waitLoop rx rest tries (sends + 1)

/-- A full command exchange: initial send, then the wait loop with
    tries = 1. -/
def waitForResponse (rx : Nat) (events : List (Option InFrame)) : ExchangeOutcome × Nat :=
  waitLoop rx events 1 1

/-- The stage methods invoked by the top-level orchestration. -/
inductive Stage where
  | connectS
  | clearS
  | programS
  | disconnectS
deriving DecidableEq

/-- True for the exceptions matched by except ConnectionAbortedError. -/
def isConnAborted : PyExc → Bool
  | .connAbortedTimeout => true
  | .connAbortedCode _ => true
  | _ => false

/-- True for the exceptions matched by except ConnectionError.  In Python,
    ConnectionAbortedError is a subclass of ConnectionError, but the source
    lists the ConnectionAbortedError clause first, so this clause only ever
    receives the plain ConnectionError cases. -/
def isConnError : PyExc → Bool
  | .connError => true
  | .connAbortedTimeout => true
  | .connAbortedCode _ => true
  | _ => false

/-- Body of the two except ConnectionAbortedError clauses in the call
    method: if err.args[0] == the Timeout text, print a message; otherwise
    print XCPErrors.error_messages[err.args[0]], whose dict lookup raises
    KeyError when the code is not a key.  Returns the exception escaping
    the handler body, if any. -/
def handleAborted : PyExc → Option PyExc
  | .connAbortedTimeout => none
  | .connAbortedCode code =>
    if errorMessageKeys.contains code then none else some .keyError
  | e => some e

/-- Result of one invocation of the call method: the sequence of stage
    calls made and the exception escaping the whole call, if any. -/
structure FlashResult where
  calls : List Stage
  escaping : Option PyExc
deriving DecidableEq

/-- The try body of the call method runs connect, then clear, then
    program, stopping at the first raise; this is the exception pending
    when the body finishes, as a function of the outcome of each stage
    (none for normal return, some e when the stage raises e). -/
def bodyOutcome (c cl p : Option PyExc) : Option PyExc :=
  match c with
  | some e => some e
  | none =>
    match cl with
    | some e => some e
    | none => p

/-- The two except clauses guarding the try body: a ConnectionAbortedError
    goes to handleAborted, a remaining ConnectionError is printed, any
    other exception stays pending. -/
def handleBody (body : Option PyExc) : Option PyExc :=
  match body with
  | none => none
  | some e =>
    if isConnAborted e then handleAborted e
    else if isConnError e then none
    else some e

/-- The single except ConnectionAbortedError clause around the disconnect
    call in the finally block. -/
def handleFinally (d : Option PyExc) : Option PyExc :=
  match d with
  | none => none
  | some e => if isConnAborted e then handleAborted e else some e

/-- The try/except/finally structure of the call method, as a function of
    the outcome of each stage.  The finally block runs disconnect exactly
    once on every path; by Python semantics an exception escaping the
    finally block replaces a pending one, and a pending exception
    otherwise escapes after the finally block completes. -/
def flashCall (c cl p d : Option PyExc) : FlashResult :=
  let bodyCalls : List Stage :=
    [.connectS] ++
      (if c = none then
        [.clearS] ++ (if cl = none then [.programS] else [])
       else [])
  ⟨bodyCalls ++ [.disconnectS],
   match handleFinally d with
   | some e => some e
   | none => handleBody (bodyOutcome c cl p)⟩

/-- The firmware image of the failing scenario: thirteen bytes. -/
def data13 : List Nat :=
  [1, 2, 3, 4, 5, 6, 7, 8, 9, 10, 11, 12, 13]

/-- Concatenation of the payload slices of a frame list, in emission
    order. -/
def payloadBytes (fs : List PFrame) : List Nat :=
  (fs.map PFrame.payload).flatten

/-- With data_len 12 and max_data_prg 6 on the 13-byte image, one outer
    iteration started at cursor 7 computes send_length 6, emits the
    PROGRAM frame for bytes 7 to 12, then decrements send_length to 0
    before the cursor update, so bytes_send advances by min 0 6 = 0 and
    the next iteration starts at cursor 7 again. -/
theorem outerLoop_stuck_step (f : Nat) :
    (outerLoop 12 6 data13 (f + 1) 7).2.2 = (outerLoop 12 6 data13 f 7).2.2 := rfl

/-- The scheduling loop never leaves cursor 7 in the failing scenario,
    for any number of outer iterations. -/
theorem outerLoop_stuck (f : Nat) :
    (outerLoop 12 6 data13 f 7).2.2 = false := by
  induction f with
  | zero => rfl
  | succ f ih => exact (outerLoop_stuck_step f).trans ih

/-- From cursor 0 the failing scenario reaches the stuck cursor 7 after
    two outer iterations (the full 12-byte unit, then the 1-byte tail
    whose cursor update moves bytes_send from 13 back to 7). -/
theorem outerLoop_reaches_stuck (f : Nat) :
    (outerLoop 12 6 data13 (f + 2) 0).2.2 = (outerLoop 12 6 data13 f 7).2.2 := rfl

/-- C1: the claim that for every firmware and negotiated capacity the
    scheduling loop emits payloads concatenating exactly to the image
    fails on the code.  In the failing scenario of the specification
    itself (13-byte image, per-frame capacity 6) with two transfers per
    acknowledgement (PROGRAM_START response byte3 = 8, byte4 = 2, hence
    data_len = 12, max_data_prg = 6), after three outer iterations the
    loop has already emitted 19 payload bytes for the 13-byte image,
    re-sending bytes 7 to 12, and the loop is still running. -/
theorem c1_program_overemits :
    (payloadBytes (outerLoop 12 6 data13 3 0).1).length = 19 ∧
    data13.length = 13 ∧
    (outerLoop 12 6 data13 3 0).2.2 = false := by
  refine ⟨rfl, rfl, rfl⟩

/-- C2: the claim that program(data) always terminates fails on the code.
    In the same scenario the cursor update after the 1-byte tail frame
    moves bytes_send backwards to 7 and then never advances again, so the
    scheduling loop never exits, for any number of outer iterations, and
    PROGRAM_RESET is never sent. -/
theorem c2_program_diverges (fuel : Nat) :
    program 12 6 data13 fuel = ProgramOutcome.fuelOut := by
  have key : (outerLoop 12 6 data13 fuel 0).2.2 = false := by
    rcases fuel with _ | _ | f
    · rfl
    · rfl
    · exact (outerLoop_reaches_stuck f).trans (outerLoop_stuck f)
  simp [program, key]

/-- When the retry counter has reached 5 the loop raises
    ConnectionAbortedError with the Timeout argument before polling. -/
theorem waitLoop_timeout (rx : Nat) (events : List (Option InFrame)) (sends : Nat) :
    waitLoop rx events 5 sends = (.timeout, sends) := by
  rw [waitLoop.eq_def]
  simp

/-- A silent poll (reader.get_message returned None) resends the frame and
    increments the retry counter. -/
theorem waitLoop_none_step (rx : Nat) (events : List (Option InFrame))
    (tries sends : Nat) (ht : tries ≠ 5) :
    waitLoop rx (none :: events) tries sends = waitLoop rx events (tries + 1) (sends + 1) := by
  rw [waitLoop.eq_def]
  simp [ht]

/-- C3 counterexample: the claim that an exchange with no matching
    SUCCESS or ERROR reply always fails with Timeout after exactly 5 send
    attempts is false when non-matching frames arrive: a non-matching
    frame (here arbitration id 3 while the session receive id is 2)
    triggers a retransmission without incrementing the retry counter, so
    after one such frame and four silent timeouts the exchange times out
    only after 6 sends; and with only non-matching frames arriving the
    exchange never times out at all (10 sends and still waiting after
    nine frames). -/
theorem c3_nonmatching_frames_break_retry_count :
    waitForResponse 2 [some ⟨3, 0, 0⟩, none, none, none, none] =
      (ExchangeOutcome.timeout, 6) ∧
    waitForResponse 2 (List.replicate 9 (some ⟨3, 0, 0⟩)) =
      (ExchangeOutcome.pending, 10) := by
  refine ⟨by decide, by decide⟩

/-- C3 as amended: when the transport stays silent (every poll returns
    none), the exchange fails with Timeout after exactly 5 send attempts
    of the same frame, one initial send plus four retransmissions,
    regardless of the receive identifier and of any further events. -/
theorem c3_silent_timeout_after_five_sends (rx : Nat) (rest : List (Option InFrame)) :
    waitForResponse rx (none :: none :: none :: none :: rest) =
      (ExchangeOutcome.timeout, 5) := by
  rw [waitForResponse, waitLoop_none_step rx _ 1 1 (by decide),
    waitLoop_none_step rx _ 2 2 (by decide), waitLoop_none_step rx _ 3 3 (by decide),
    waitLoop_none_step rx _ 4 4 (by decide), waitLoop_timeout]

/-- C4 counterexample: the claim that a matching reply whose first byte
    is neither the SUCCESS nor the ERROR marker makes the exchange fail
    with ProtocolViolation is false: the code has no such failure.  A
    matching frame with discriminator 0x42 merely causes the original
    frame to be resent, and a subsequent SUCCESS reply completes the
    exchange normally. -/
theorem c4_unknown_discriminator_not_fatal :
    waitForResponse 2 [some ⟨2, 0x42, 0⟩, some ⟨2, 0xFF, 7⟩] =
      (ExchangeOutcome.success ⟨2, 0xFF, 7⟩, 2) := by decide

/-- C4 as amended: a reply carrying the session receive identifier with a
    discriminator byte that is neither SUCCESS nor ERROR is never treated
    as a success; the original frame is resent, the retry counter is not
    incremented and waiting continues with the remaining events.  No
    ProtocolViolation failure exists in the code. -/
theorem c4_unknown_discriminator_resends (rx : Nat) (f : InFrame)
    (rest : List (Option InFrame)) (tries sends : Nat)
    (_hid : f.arbitration_id = rx)
    (hs : f.byte0 ≠ XCPResponses.SUCCESS)
    (he : f.byte0 ≠ XCPResponses.ERROR)
    (ht : tries ≠ 5) :
    waitLoop rx (some f :: rest) tries sends = waitLoop rx rest tries (sends + 1) := by
  have h1 : ¬(f.arbitration_id = rx ∧ f.byte0 = XCPResponses.SUCCESS) := fun h => hs h.2
  have h2 : ¬(f.arbitration_id = rx ∧ f.byte0 = XCPResponses.ERROR) := fun h => he h.2
  rw [waitLoop, if_neg ht]
  simp [h1, h2]

/-- Witness for the amended C4 theorem at a concrete matching frame with
    discriminator 0x42 and one remaining event. -/
theorem c4_unknown_discriminator_resends_witness :
    waitLoop 2 [some ⟨2, 0x42, 0⟩, none] 1 1 = waitLoop 2 [none] 1 2 :=
  c4_unknown_discriminator_resends 2 ⟨2, 0x42, 0⟩ [none] 1 1 rfl
    (by decide) (by decide) (by decide)

/-- An exception outcome of a stage of the call method that its handlers
    convert to a printed message: no exception, a Timeout, a device error
    whose code is a key of the error message table, or a plain
    ConnectionError from the capability checks. -/
def benignOutcome : Option PyExc → Bool
  | none => true
  | some .connAbortedTimeout => true
  | some (.connAbortedCode code) => errorMessageKeys.contains code
  | some .connError => true
  | some _ => false

/-- An exception outcome of the disconnect call in the finally block that
    its single except ConnectionAbortedError clause converts to a printed
    message.  A plain ConnectionError is not caught there, but disconnect
    can only raise ConnectionAbortedError. -/
def benignDisconnect : Option PyExc → Bool
  | none => true
  | some .connAbortedTimeout => true
  | some (.connAbortedCode code) => errorMessageKeys.contains code
  | some _ => false

/-- C5 counterexample: the claim that no exception propagates out of the
    call method for any one-byte device error code is false.  If connect
    raises ConnectionAbortedError with code 0x01, which is not a key of
    XCPErrors.error_messages, the handler itself raises KeyError from the
    dict lookup, and that KeyError escapes the call. -/
theorem c5_unknown_code_keyerror_escapes :
    (flashCall (some (.connAbortedCode 0x01)) none none none).escaping =
      some PyExc.keyError := by decide

/-- C5 as amended: when every stage outcome is one the handlers cover (no
    exception, Timeout, a device error code that is a key of the error
    message table, or a plain ConnectionError), no exception propagates
    out of the call method; a device error code missing from the table
    instead raises KeyError inside the handler, which escapes. -/
theorem c5_benign_outcomes_caught (c cl p d : Option PyExc)
    (hc : benignOutcome c = true) (hcl : benignOutcome cl = true)
    (hp : benignOutcome p = true) (hd : benignDisconnect d = true) :
    (flashCall c cl p d).escaping = none := by
  have hbody : benignOutcome (bodyOutcome c cl p) = true := by
    rcases c with _ | ec
    · rcases cl with _ | ecl
      · exact hp
      · exact hcl
    · exact hc
  have h1 : handleBody (bodyOutcome c cl p) = none := by
    rcases h : bodyOutcome c cl p with _ | e
    · rfl
    · rw [h] at hbody
      rcases e <;>
        simp_all [benignOutcome, handleBody, handleAborted, isConnAborted, isConnError]
  have h2 : handleFinally d = none := by
    rcases d with _ | ed
    · rfl
    · rcases ed <;>
        simp_all [benignDisconnect, handleFinally, handleAborted, isConnAborted]
  simp [flashCall, h1, h2]

/-- Witness for the amended C5 theorem: clear fails with device error
    0x10 (a key of the table), and the call returns normally. -/
theorem c5_benign_outcomes_caught_witness :
    (flashCall none (some (.connAbortedCode 0x10)) none none).escaping = none :=
  c5_benign_outcomes_caught none (some (.connAbortedCode 0x10)) none none
    (by decide) (by decide) (by decide) (by decide)

/-- C7 counterexample: the claim that processing a PROGRAM_START success
    response stores byte3 as the per-transfer programming capacity is
    false: for the response with byte3 = 8 and byte4 = 2 the code stores
    max_data_prg = byte3 - 2 = 6, not 8, and data_len = 6 * 2 = 12. -/
theorem c7_program_start_stores_byte3_minus_2 :
    processProgramStart [0xFF, 0, 0, 8, 2, 0, 0, 0] = ⟨12, 6⟩ ∧
    (processProgramStart [0xFF, 0, 0, 8, 2, 0, 0, 0]).max_data_prg ≠ 8 := by
  refine ⟨by decide, by decide⟩

/-- C7 as amended: processing a CONNECT success response stores as the
    generic transfer limit the 16-bit value of bytes 4 and 5 with byte 4
    most significant, and processing a PROGRAM_START success response
    stores byte3 minus 2 (the frame length less the two header bytes) as
    the per-transfer programming capacity max_data_prg, and that capacity
    times byte4 (the transfers permitted before an acknowledgement) as
    the block length data_len. -/
theorem c7_negotiation_stores (b0 b1 b2 b3 b4 b5 b6 b7 : Nat) :
    connectMaxData [b0, b1, b2, b3, b4, b5, b6, b7] = b4 * 256 + b5 ∧
    processProgramStart [b0, b1, b2, b3, b4, b5, b6, b7] =
      ⟨((b3 : Int) - 2) * (b4 : Int), (b3 : Int) - 2⟩ := by
  refine ⟨?_, rfl⟩
  simp [connectMaxData, Nat.shiftLeft_eq]

/-- C8: disconnect is invoked exactly once per invocation of the call
    method, whatever the outcomes of connect, clear, program and
    disconnect itself: the finally block runs it on every path, including
    when connect itself raised and when a handler raised KeyError. -/
theorem c8_disconnect_exactly_once (c cl p d : Option PyExc) :
    ((flashCall c cl p d).calls.count Stage.disconnectS) = 1 := by
  rcases c with _ | ec <;> rcases cl with _ | ecl <;>
    simp [flashCall, List.count_cons, List.count_append]

/-- C10: print_progress_bar with total zero raises ZeroDivisionError from
    the percent computation; consequently program(data) on an empty
    firmware skips its scheduling loop (for any negotiated parameters and
    any fuel), reaches the final progress report with total zero and
    raises ZeroDivisionError before PROGRAM_RESET; the call method does
    not catch ZeroDivisionError, so the flash call never completes
    normally. -/
theorem c10_empty_firmware_zero_division :
    print_progress_bar 0 0 = .error .zeroDivision ∧
    (∀ (U C : Int) (fuel : Nat), program U C [] fuel = .raised .zeroDivision) ∧
    (flashCall none none (some .zeroDivision) none).escaping = some .zeroDivision := by
  refine ⟨rfl, ?_, by decide⟩
  intro U C fuel
  have h : outerLoop U C [] fuel 0 = ([], 0, true) := by
    cases fuel <;> simp [outerLoop]
  simp [program, h, print_progress_bar]

/-- Setting the element just past a prefix of known length. -/
theorem set_after_prefix (pre : List Nat) (x d : Nat) (rest : List Nat) :
    (pre ++ x :: rest).set pre.length d = pre ++ d :: rest := by
  rw [List.set_append_right _ _ (Nat.le_refl _)]
  simp

/-- A successful bytearray assignment. -/
theorem baSet_ok (xs : List Nat) (i : Nat) (v : Int)
    (hi : i < xs.length) (h0 : 0 ≤ v) (h255 : v < 256) :
    baSet xs i v = .ok (xs.set i v.toNat) := by
  simp [baSet, hi, h0, h255]

/-- The payload-copy loop of execute writes the payload bytes over the
    zero suffix that starts right after the already-written part of the
    frame, provided the payload fits and its elements are bytes. -/
theorem writePayload_ok (ds : List Nat) : ∀ (pre : List Nat) (r : Nat),
    ds.length ≤ r → (∀ b ∈ ds, b < 256) →
    writePayload (pre ++ List.replicate r 0) pre.length ds =
      .ok (pre ++ ds ++ List.replicate (r - ds.length) 0) := by
  induction ds with
  | nil => intro pre r _ _; simp [writePayload]
  | cons d ds ih =>
    intro pre r hlen hbytes
    rcases r with _ | r
    · exact absurd hlen (by simp)
    · have hd : (d : Int) < 256 := by
        exact_mod_cast hbytes d (List.mem_cons_self d ds)
      have hset : baSet (pre ++ List.replicate (r + 1) 0) pre.length (d : Int) =
          .ok (pre ++ d :: List.replicate r 0) := by
        rw [baSet_ok _ _ _ (by simp) (by positivity) hd]
        rw [List.replicate_succ, set_after_prefix]
        simp
      rw [writePayload, hset]
      have step := ih (pre ++ [d]) r (by simpa using hlen)
        (fun b hb => hbytes b (List.mem_cons_of_mem d hb))
      simp only [List.append_assoc, List.singleton_append, List.length_append,
        List.length_cons, List.length_nil] at step
      rw [show pre.length + 1 = pre.length + [d].length by simp] at step ⊢
      simpa [List.append_assoc] using step

/-- C6 counterexample: the claim that byte1 of every PROGRAM or
    PROGRAM_NEXT frame equals the payload length carried in that frame
    and is at most 6 is false.  The very first frame of the 13-byte
    scenario of the specification is built by
    execute(PROGRAM, size=13, data=the first 6 bytes): byte1 is 13, the
    declared length of the logical unit, while the frame carries 6
    payload bytes. -/
theorem c6_byte1_is_unit_size_not_payload_length :
    executeProgram XCPCommands.PROGRAM 13 [1, 2, 3, 4, 5, 6] =
      .ok [0xD0, 13, 1, 2, 3, 4, 5, 6] ∧
    ([1, 2, 3, 4, 5, 6] : List Nat).length = 6 ∧ (13 : Nat) ≠ 6 := by
  refine ⟨rfl, rfl, by decide⟩

/-- C6 as amended: byte1 of a PROGRAM or PROGRAM_NEXT frame equals the
    size argument of the execute call (the declared remaining length of
    the logical unit, which may exceed the payload length of the frame),
    and bytes 2 onward carry exactly the payload bytes left-packed,
    padded with zeros; at most 6 payload bytes fit, and a size above 255
    or a seventh payload byte would make the bytearray assignment raise. -/
theorem c6_executeProgram_spec (code : Nat) (size : Int) (payload : List Nat)
    (hcode : code < 256) (h0 : 0 ≤ size) (h255 : size < 256)
    (hlen : payload.length ≤ 6) (hbytes : ∀ b ∈ payload, b < 256) :
    executeProgram code size payload =
      .ok ([code, size.toNat] ++ payload ++ List.replicate (6 - payload.length) 0) := by
  have h1 : baSet (List.replicate 8 0) 0 (code : Int) =
      .ok (code :: List.replicate 7 0) := by
    rw [baSet_ok _ _ _ (by simp) (by positivity) (by exact_mod_cast hcode)]
    rw [show (List.replicate 8 (0 : Nat)) = 0 :: List.replicate 7 0 from rfl]
    simp
  have h2 : baSet (code :: List.replicate 7 0) 1 size =
      .ok (code :: size.toNat :: List.replicate 6 0) := by
    rw [baSet_ok _ _ _ (by simp) h0 h255]
    rw [show (List.replicate 7 (0 : Nat)) = 0 :: List.replicate 6 0 from rfl]
    simp
  have h3 := writePayload_ok payload [code, size.toNat] 6 hlen hbytes
  simp only [List.cons_append, List.nil_append, List.length_cons,
    List.length_nil] at h3
  rw [executeProgram.eq_def]
  simp only [h1, h2]
  simpa using h3

/-- Witness for the amended C6 theorem at the frame of the
    counterexample. -/
theorem c6_executeProgram_spec_witness :
    executeProgram XCPCommands.PROGRAM 13 [1, 2, 3, 4, 5, 6] =
      .ok ([XCPCommands.PROGRAM, (13 : Int).toNat] ++ [1, 2, 3, 4, 5, 6] ++
        List.replicate (6 - ([1, 2, 3, 4, 5, 6] : List Nat).length) 0) :=
  c6_executeProgram_spec XCPCommands.PROGRAM 13 [1, 2, 3, 4, 5, 6]
    (by decide) (by decide) (by decide) (by decide) (by decide)

/-- Masking with a byte mask shifted up by k and shifting back down
    extracts the byte at bit offset k. -/
theorem maskShiftByte (v k : Nat) :
    (v &&& (255 * 2 ^ k)) >>> k = v / 2 ^ k % 256 := by
  have h255 : (255 : Nat) * 2 ^ k = (2 ^ 8 - 1) <<< k := by
    rw [Nat.shiftLeft_eq]
    norm_num
  rw [h255, ← Nat.shiftRight_eq_div_pow,
    show (256 : Nat) = 2 ^ 8 from by norm_num]
  apply Nat.eq_of_testBit_eq
  intro j
  simp only [Nat.testBit_shiftRight, Nat.testBit_and, Nat.testBit_shiftLeft,
    Nat.testBit_two_pow_sub_one, Nat.testBit_mod_two_pow]
  simp [Nat.add_sub_cancel_left, Nat.le_add_right, Bool.and_comm]

/-- The byte 4 expression of the big-endian loop in execute. -/
theorem byte4_eq (v : Nat) :
    (v &&& (0xFF000000 >>> (8 * (4 - 4)))) >>> (8 * (7 - 4)) = v / 2 ^ 24 % 256 := by
  have h := maskShiftByte v 24
  rw [show (0xFF000000 : Nat) >>> (8 * (4 - 4)) = 255 * 2 ^ 24 from by
    norm_num [Nat.shiftRight_eq_div_pow]]
  rw [show (8 * (7 - 4)) = 24 from rfl]
  exact h

/-- The byte 5 expression of the big-endian loop in execute. -/
theorem byte5_eq (v : Nat) :
    (v &&& (0xFF000000 >>> (8 * (5 - 4)))) >>> (8 * (7 - 5)) = v / 2 ^ 16 % 256 := by
  have h := maskShiftByte v 16
  rw [show (0xFF000000 : Nat) >>> (8 * (5 - 4)) = 255 * 2 ^ 16 from by
    norm_num [Nat.shiftRight_eq_div_pow]]
  rw [show (8 * (7 - 5)) = 16 from rfl]
  exact h

/-- The byte 6 expression of the big-endian loop in execute. -/
theorem byte6_eq (v : Nat) :
    (v &&& (0xFF000000 >>> (8 * (6 - 4)))) >>> (8 * (7 - 6)) = v / 2 ^ 8 % 256 := by
  have h := maskShiftByte v 8
  rw [show (0xFF000000 : Nat) >>> (8 * (6 - 4)) = 255 * 2 ^ 8 from by
    norm_num [Nat.shiftRight_eq_div_pow]]
  rw [show (8 * (7 - 6)) = 8 from rfl]
  exact h

/-- The byte 7 expression of the big-endian loop in execute. -/
theorem byte7_eq (v : Nat) :
    (v &&& (0xFF000000 >>> (8 * (7 - 4)))) >>> (8 * (7 - 7)) = v % 256 := by
  have h := maskShiftByte v 0
  rw [show (0xFF000000 : Nat) >>> (8 * (7 - 4)) = 255 * 2 ^ 0 from by
    norm_num [Nat.shiftRight_eq_div_pow]]
  rw [show (8 * (7 - 7)) = 0 from rfl]
  simpa using h

/-- C9: execute(SET_MTA) builds a frame with byte0 the command code,
    byte3 the address extension and bytes 4 to 7 the address with the
    most-significant byte first; execute(PROGRAM_CLEAR) builds a frame
    with byte0 the command code and bytes 4 to 7 the range length with
    the most-significant byte first; all other bytes are zero.  The
    extension must be a byte for the bytearray assignment to succeed; the
    mask makes the encoding agree with the big-endian bytes of the value
    reduced modulo 2 to the 32. -/
theorem c9_setmta_programclear_bigendian (ext addr rng : Nat) (hext : ext < 256) :
    executeSetMta ext addr =
      .ok [0xF6, 0, 0, ext, addr / 2 ^ 24 % 256, addr / 2 ^ 16 % 256,
        addr / 2 ^ 8 % 256, addr % 256] ∧
    executeProgramClear rng =
      .ok [0xD1, 0, 0, 0, rng / 2 ^ 24 % 256, rng / 2 ^ 16 % 256,
        rng / 2 ^ 8 % 256, rng % 256] := by
  have s3 : baSet [0xF6, 0, 0, 0, 0, 0, 0, 0] 3 (ext : Int) =
      .ok [0xF6, 0, 0, ext, 0, 0, 0, 0] := by
    rw [baSet_ok _ _ _ (by simp) (by positivity) (by exact_mod_cast hext)]
    simp
  have s4 : baSet [0xF6, 0, 0, ext, 0, 0, 0, 0] 4 ((addr / 2 ^ 24 % 256 : Nat) : Int) =
      .ok [0xF6, 0, 0, ext, addr / 2 ^ 24 % 256, 0, 0, 0] := by
    rw [baSet_ok _ _ _ (by simp) (by positivity)
      (by exact_mod_cast Nat.mod_lt _ (by norm_num))]
    simp
    omega
  have s5 : baSet [0xF6, 0, 0, ext, addr / 2 ^ 24 % 256, 0, 0, 0] 5
      ((addr / 2 ^ 16 % 256 : Nat) : Int) =
      .ok [0xF6, 0, 0, ext, addr / 2 ^ 24 % 256, addr / 2 ^ 16 % 256, 0, 0] := by
    rw [baSet_ok _ _ _ (by simp) (by positivity)
      (by exact_mod_cast Nat.mod_lt _ (by norm_num))]
    simp
    omega
  have s6 : baSet [0xF6, 0, 0, ext, addr / 2 ^ 24 % 256, addr / 2 ^ 16 % 256, 0, 0] 6
      ((addr / 2 ^ 8 % 256 : Nat) : Int) =
      .ok [0xF6, 0, 0, ext, addr / 2 ^ 24 % 256, addr / 2 ^ 16 % 256,
        addr / 2 ^ 8 % 256, 0] := by
    rw [baSet_ok _ _ _ (by simp) (by positivity)
      (by exact_mod_cast Nat.mod_lt _ (by norm_num))]
    simp
    omega
  have s7 : baSet [0xF6, 0, 0, ext, addr / 2 ^ 24 % 256, addr / 2 ^ 16 % 256,
      addr / 2 ^ 8 % 256, 0] 7 ((addr % 256 : Nat) : Int) =
      .ok [0xF6, 0, 0, ext, addr / 2 ^ 24 % 256, addr / 2 ^ 16 % 256,
        addr / 2 ^ 8 % 256, addr % 256] := by
    rw [baSet_ok _ _ _ (by simp) (by positivity)
      (by exact_mod_cast Nat.mod_lt _ (by norm_num))]
    simp
    omega
  have t4 : baSet [0xD1, 0, 0, 0, 0, 0, 0, 0] 4 ((rng / 2 ^ 24 % 256 : Nat) : Int) =
      .ok [0xD1, 0, 0, 0, rng / 2 ^ 24 % 256, 0, 0, 0] := by
    rw [baSet_ok _ _ _ (by simp) (by positivity)
      (by exact_mod_cast Nat.mod_lt _ (by norm_num))]
    simp
    omega
  have t5 : baSet [0xD1, 0, 0, 0, rng / 2 ^ 24 % 256, 0, 0, 0] 5
      ((rng / 2 ^ 16 % 256 : Nat) : Int) =
      .ok [0xD1, 0, 0, 0, rng / 2 ^ 24 % 256, rng / 2 ^ 16 % 256, 0, 0] := by
    rw [baSet_ok _ _ _ (by simp) (by positivity)
      (by exact_mod_cast Nat.mod_lt _ (by norm_num))]
    simp
    omega
  have t6 : baSet [0xD1, 0, 0, 0, rng / 2 ^ 24 % 256, rng / 2 ^ 16 % 256, 0, 0] 6
      ((rng / 2 ^ 8 % 256 : Nat) : Int) =
      .ok [0xD1, 0, 0, 0, rng / 2 ^ 24 % 256, rng / 2 ^ 16 % 256,
        rng / 2 ^ 8 % 256, 0] := by
    rw [baSet_ok _ _ _ (by simp) (by positivity)
      (by exact_mod_cast Nat.mod_lt _ (by norm_num))]
    simp
    omega
  have t7 : baSet [0xD1, 0, 0, 0, rng / 2 ^ 24 % 256, rng / 2 ^ 16 % 256,
      rng / 2 ^ 8 % 256, 0] 7 ((rng % 256 : Nat) : Int) =
      .ok [0xD1, 0, 0, 0, rng / 2 ^ 24 % 256, rng / 2 ^ 16 % 256,
        rng / 2 ^ 8 % 256, rng % 256] := by
    rw [baSet_ok _ _ _ (by simp) (by positivity)
      (by exact_mod_cast Nat.mod_lt _ (by norm_num))]
    simp
    omega
  constructor
  · rw [executeSetMta.eq_def]
    rw [byte4_eq addr, byte5_eq addr, byte6_eq addr, byte7_eq addr]
    simp only [show baSet (List.replicate 8 0) 0 ((XCPCommands.SET_MTA : Nat) : Int) =
      .ok [0xF6, 0, 0, 0, 0, 0, 0, 0] from rfl, s3, s4, s5, s6, s7]
  · rw [executeProgramClear.eq_def]
    rw [byte4_eq rng, byte5_eq rng, byte6_eq rng, byte7_eq rng]
    simp only [show baSet (List.replicate 8 0) 0 ((XCPCommands.PROGRAM_CLEAR : Nat) : Int) =
      .ok [0xD1, 0, 0, 0, 0, 0, 0, 0] from rfl, t4, t5, t6, t7]

/-- Witness for the C9 theorem at extension 1, address 0x12345678 and
    range length 0x01020304. -/
theorem c9_setmta_programclear_bigendian_witness :
    executeSetMta 1 0x12345678 =
      .ok [0xF6, 0, 0, 1, 0x12345678 / 2 ^ 24 % 256, 0x12345678 / 2 ^ 16 % 256,
        0x12345678 / 2 ^ 8 % 256, 0x12345678 % 256] ∧
    executeProgramClear 0x01020304 =
      .ok [0xD1, 0, 0, 0, 0x01020304 / 2 ^ 24 % 256, 0x01020304 / 2 ^ 16 % 256,
        0x01020304 / 2 ^ 8 % 256, 0x01020304 % 256] :=
  c9_setmta_programclear_bigendian 1 0x12345678 0x01020304 (by decide)
